import Mathlib

/-!
Shallow embedding of `src/index.js` (the `BemEntityName` class of
bem-contrib/bem-entity).

JavaScript values that can appear in the fields the constructor reads are
modelled by `Prim` (primitives) and `ModField` (the `mod` field, which may be
a primitive — including the string shorthand — or an object with optional
`name` / `val` properties).  `Option` on a field models `hasOwnProperty`:
`none` is an absent property, `some p` a present one (possibly explicitly
`undefined`).  Reading an absent property yields `Prim.undef`.
-/

/-- JavaScript primitive values relevant to the constructor's inputs.
Numbers are modelled by `Int` (NaN is out of scope for these claims). -/
inductive Prim where
  | undef
  | null
  | bool (b : Bool)
  | num (n : Int)
  | str (s : String)
deriving DecidableEq, Repr

/-- JavaScript truthiness of a primitive. -/
def truthy : Prim → Bool
  | Prim.undef => false
  | Prim.null => false
  | Prim.bool b => b
  | Prim.num n => n != 0
  | Prim.str s => s != ""

/-- The value of the input's `mod` property: a primitive (in particular the
string shorthand) or an object with optional `name` and `val` properties. -/
inductive ModField where
  | prim (p : Prim)
  | mobj (name : Option Prim) (val : Option Prim)
deriving DecidableEq, Repr

/-- The input object `obj` passed to the constructor.  `none` means the
property is absent (so `hasOwnProperty` is false and reading gives
`undefined`). -/
structure InputObj where
  block : Option Prim := none
  elem : Option Prim := none
  mod : Option ModField := none
  modName : Option Prim := none
  modVal : Option Prim := none
deriving DecidableEq, Repr

/-- Line 27 of src/index.js:
`(typeof obj.mod === 'string' ? obj.mod : obj.mod && obj.mod.name) || obj.modName`.
A truthy non-string primitive `mod` has no `name` property, so the access
yields `undefined`; a falsy `mod` is returned by `&&` unchanged; an object
`mod` yields its `name` property (or `undefined`). -/
def modNameResolved (obj : InputObj) : Prim :=
  let lhs : Prim :=
    match obj.mod with
    | some (ModField.prim (Prim.str s)) => Prim.str s
    | some (ModField.prim p) => if truthy p then Prim.undef else p
    | some (ModField.mobj name _) => name.getD Prim.undef
    | none => Prim.undef
  if truthy lhs then lhs else obj.modName.getD Prim.undef

/-- Line 30 of src/index.js, the condition
`obj.hasOwnProperty('modVal') || obj.mod && obj.mod.hasOwnProperty('val')`.
A primitive `mod` never owns a `val` property. -/
def hasExplicitVal (obj : InputObj) : Bool :=
  obj.modVal.isSome ||
    (match obj.mod with
     | some (ModField.mobj _ val) => val.isSome
     | _ => false)

/-- Line 31 of src/index.js, the branch `obj.mod && obj.mod.val || obj.modVal`.
JavaScript parses it as `(obj.mod && obj.mod.val) || obj.modVal`: a falsy
`obj.mod.val` therefore falls through to `obj.modVal`. -/
def modValExpr (obj : InputObj) : Prim :=
  let lhs : Prim :=
    match obj.mod with
    | none => Prim.undef
    | some (ModField.prim p) => if truthy p then Prim.undef else p
    | some (ModField.mobj _ val) => val.getD Prim.undef
  if truthy lhs then lhs else obj.modVal.getD Prim.undef

/-- Lines 30–32 of src/index.js: the resolved modifier value, `true` when no
explicit `val` / `modVal` property exists. -/
def modValResolved (obj : InputObj) : Prim :=
  if hasExplicitVal obj then modValExpr obj else Prim.bool true

/-- The `{ name, val }` object stored in `this._obj.mod`. -/
structure ModPair where
  name : Prim
  val : Prim
deriving DecidableEq, Repr

/-- The internal store `this._obj`: `elem` and `mod` are present only when
the constructor assigned them. -/
structure StoredObj where
  block : Prim
  elem : Option Prim
  mod : Option ModPair
deriving DecidableEq, Repr

/-- A constructed instance: `this._obj` plus the `this._isEntity` marker set
on line 39. -/
structure BemInstance where
  obj : StoredObj
  isEntityFlag : Bool
deriving DecidableEq, Repr

/-- Lines 19–40 of src/index.js, the constructor.  A falsy `obj.block` throws;
otherwise `_obj.block` is set, `_obj.elem` only when `obj.elem` is truthy
(line 25), and `_obj.mod` only when the resolved modifier name is truthy
(lines 29–38). -/
def construct (input : InputObj) : Except String BemInstance :=
  let blockV := input.block.getD Prim.undef
  if truthy blockV then
    let elemV := input.elem.getD Prim.undef
    let mn := modNameResolved input
    Except.ok
      { obj :=
          { block := blockV,
            elem := if truthy elemV then some elemV else none,
            mod := if truthy mn then some ⟨mn, modValResolved input⟩ else none },
        isEntityFlag := true }
  else
    Except.error "This is not valid BEM entity: the field `block` is undefined."

/-- Line 51: `get block() { return this._obj.block; }`. -/
def getBlock (i : BemInstance) : Prim := i.obj.block

/-- Line 64: `get elem() { return this._obj.elem; }` — reading an absent
property yields `undefined`. -/
def getElem (i : BemInstance) : Prim := i.obj.elem.getD Prim.undef

/-- Line 77: `get mod() { return this._obj.mod || \x7b\x7d; }` — `none` models
the empty object. -/
def getMod (i : BemInstance) : Option ModPair := i.obj.mod

/-- Line 86: `get modName() { return this.mod.name; }` — `undefined` on the
empty object. -/
def getModName (i : BemInstance) : Prim := (getMod i).elim Prim.undef ModPair.name

/-- Line 95: `get modVal() { return this.mod.val; }`. -/
def getModVal (i : BemInstance) : Prim := (getMod i).elim Prim.undef ModPair.val

/-- The normalized tuple `{ block, elem?, modName?, modVal? }` fed to the
external `bem-naming` collaborators (lines 114–118 and 142–146). -/
structure EntityTuple where
  block : Prim
  elem : Option Prim
  modName : Option Prim
  modVal : Option Prim
deriving DecidableEq, Repr

/-- Lines 114–118: the tuple is built by assigning `elem` / `modName` /
`modVal` only when the corresponding accessor is truthy. -/
def idTuple (i : BemInstance) : EntityTuple :=
  { block := i.obj.block,
    elem := if truthy (getElem i) then some (getElem i) else none,
    modName := if truthy (getModName i) then some (getModName i) else none,
    modVal := if truthy (getModVal i) then some (getModVal i) else none }

/-- Lines 111–123: `get id()` delegates to the external `stringifyEntity`
collaborator on the normalized tuple.  The collaborator is a parameter: it is
consumed, not implemented, by this repository.  The `_id` cache memoizes a
pure function of the immutable tuple, so the returned value is this. -/
def entityId (stringify : EntityTuple → String) (i : BemInstance) : String :=
  stringify (idTuple i)

/-- Line 165: `toString() { return this.id; }`. -/
def entityToString (stringify : EntityTuple → String) (i : BemInstance) : String :=
  entityId stringify i

/-- An argument passed to `isEqual` / `isBemEntity`: `null`, `undefined`, or
a constructed instance. -/
inductive JSArg where
  | null
  | undef
  | entity (i : BemInstance)
deriving Repr

/-- Lines 223–225: `isEqual(entity) { return entity && (this.id === entity.id); }`.
When `entity` is falsy, `&&` returns that falsy value itself, not `false`. -/
def isEqual (stringify : EntityTuple → String) (self : BemInstance) : JSArg → Prim
  | JSArg.null => Prim.null
  | JSArg.undef => Prim.undef
  | JSArg.entity other =>
      Prim.bool (decide (entityId stringify self = entityId stringify other))

/-- Lines 233–235: `static isBemEntity(entity) { return entity._isEntity; }` —
the property access on `null` / `undefined` throws a TypeError instead of
producing a value. -/
def isBemEntity : JSArg → Except String Prim
  | JSArg.null => Except.error "TypeError: cannot read property of null"
  | JSArg.undef => Except.error "TypeError: cannot read property of undefined"
  | JSArg.entity i => Except.ok (Prim.bool i.isEntityFlag)

/-- A value appearing in the debug representation: a primitive or the nested
`mod` object. -/
inductive JVal where
  | prim (p : Prim)
  | modObj (fields : List (String × Prim))
deriving DecidableEq, Repr

/-- Line 182: `valueOf() { return this._obj; }`, the JS object rendered as an
association list of its own enumerable keys in insertion order (`block`,
then `elem` and `mod` when assigned).  `inspect` (line 204) renders the same
object. -/
def valueOf (i : BemInstance) : List (String × JVal) :=
  [("block", JVal.prim i.obj.block)]
    ++ (match i.obj.elem with
        | some e => [("elem", JVal.prim e)]
        | none => [])
    ++ (match i.obj.mod with
        | some m => [("mod", JVal.modObj [("name", m.name), ("val", m.val)])]
        | none => [])

/-!  Theorems settling the claims. -/

/-- A successfully constructed instance always carries the `_isEntity` marker
(line 39 assigns `true` unconditionally). -/
theorem construct_sets_flag (input : InputObj) (i : BemInstance)
    (h : construct input = Except.ok i) : i.isEntityFlag = true := by
  by_cases hb : truthy (input.block.getD Prim.undef) = true
  · simp [construct, hb] at h
    subst h
    rfl
  · simp [construct, hb] at h

/-- Claim C1: constructing with a falsy `block` (absent, `''`, `null`, `0`,
`false`) fails with the error naming the `block` field and produces no
instance; with a truthy `block` construction succeeds and the `block`
accessor returns exactly the input block. -/
theorem c1_block_validation (input : InputObj) :
    (truthy (input.block.getD Prim.undef) = false →
      construct input =
        Except.error "This is not valid BEM entity: the field `block` is undefined.") ∧
    (truthy (input.block.getD Prim.undef) = true →
      ∃ i, construct input = Except.ok i ∧
        getBlock i = input.block.getD Prim.undef) := by
  constructor
  · intro h
    simp [construct, h]
  · intro h
    refine ⟨⟨⟨input.block.getD Prim.undef,
        if truthy (input.elem.getD Prim.undef) = true then
          some (input.elem.getD Prim.undef) else none,
        if truthy (modNameResolved input) = true then
          some ⟨modNameResolved input, modValResolved input⟩ else none⟩, true⟩,
      ?_, rfl⟩
    simp [construct, h]

/-- Witness for C1 at concrete inputs: `block` absent fails, `block = "button"`
succeeds with the accessor returning it. -/
theorem c1_block_validation_witness :
    (construct { block := none } =
      Except.error "This is not valid BEM entity: the field `block` is undefined.") ∧
    (∃ i, construct { block := some (Prim.str "button") } = Except.ok i ∧
      getBlock i = Prim.str "button") :=
  ⟨(c1_block_validation { block := none }).1 (by decide),
   (c1_block_validation { block := some (Prim.str "button") }).2 (by decide)⟩

/-- Claim C2 fails on the code: at `{ block: 'b', mod: { name: 'm', val: '' } }`
the constructor stores `mod.val = undefined`, not the supplied empty string —
`obj.mod && obj.mod.val || obj.modVal` discards the explicit falsy `val`. -/
theorem c2_falsy_explicit_val_lost :
    construct { block := some (Prim.str "b"),
                mod := some (ModField.mobj (some (Prim.str "m")) (some (Prim.str ""))) } =
      Except.ok ⟨⟨Prim.str "b", none, some ⟨Prim.str "m", Prim.undef⟩⟩, true⟩ ∧
    Prim.undef ≠ Prim.str "" := by
  exact ⟨rfl, by decide⟩

/-- Claim C3 fails on the code: with an explicit (falsy) `mod.val` and a
deprecated truthy `modVal`, the deprecated field wins: `{ block: 'b',
mod: { name: 'm', val: '' }, modVal: 'y' }` stores `mod.val = 'y'`, not `''`. -/
theorem c3_deprecated_beats_falsy_mod_val :
    construct { block := some (Prim.str "b"),
                mod := some (ModField.mobj (some (Prim.str "m")) (some (Prim.str ""))),
                modVal := some (Prim.str "y") } =
      Except.ok ⟨⟨Prim.str "b", none, some ⟨Prim.str "m", Prim.str "y"⟩⟩, true⟩ ∧
    Prim.str "y" ≠ Prim.str "" := by
  exact ⟨rfl, by decide⟩

/-- Claim C4 fails on the code: for `{ block: 'b' }` (no element) the `elem`
getter returns `this._obj.elem`, which is `undefined`, not the empty string
its own doc comment promises. -/
theorem c4_elem_absent_is_undefined :
    construct { block := some (Prim.str "b") } =
      Except.ok ⟨⟨Prim.str "b", none, none⟩, true⟩ ∧
    getElem (⟨⟨Prim.str "b", none, none⟩, true⟩ : BemInstance) = Prim.undef ∧
    Prim.undef ≠ Prim.str "" := by
  exact ⟨rfl, rfl, by decide⟩

/-- Claim C5 fails on the code: at `{ block: 'b', mod: { name: 'm', val: false } }`
the modifier is stored, yet its `val` is the absent value `undefined` —
neither `true` nor the supplied `false`. -/
theorem c5_mod_val_can_be_absent :
    construct { block := some (Prim.str "b"),
                mod := some (ModField.mobj (some (Prim.str "m")) (some (Prim.bool false))) } =
      Except.ok ⟨⟨Prim.str "b", none, some ⟨Prim.str "m", Prim.undef⟩⟩, true⟩ ∧
    getModVal (⟨⟨Prim.str "b", none, some ⟨Prim.str "m", Prim.undef⟩⟩, true⟩ : BemInstance) =
      Prim.undef ∧
    Prim.undef ≠ Prim.bool true ∧ Prim.undef ≠ Prim.bool false := by
  exact ⟨rfl, rfl, by decide, by decide⟩

/-- Claim C6: the three legacy-compatible modifier shapes normalize as
specified — string shorthand gives `val = true`, an explicit truthy
`mod.val` is kept, and the legacy `modName` / `modVal` pair is used when
`mod` is absent. -/
theorem c6_modifier_shapes :
    construct { block := some (Prim.str "b"), mod := some (ModField.prim (Prim.str "m")) } =
      Except.ok ⟨⟨Prim.str "b", none, some ⟨Prim.str "m", Prim.bool true⟩⟩, true⟩ ∧
    construct { block := some (Prim.str "b"),
                mod := some (ModField.mobj (some (Prim.str "m")) (some (Prim.str "v"))) } =
      Except.ok ⟨⟨Prim.str "b", none, some ⟨Prim.str "m", Prim.str "v"⟩⟩, true⟩ ∧
    construct { block := some (Prim.str "b"), modName := some (Prim.str "m"),
                modVal := some (Prim.str "v") } =
      Except.ok ⟨⟨Prim.str "b", none, some ⟨Prim.str "m", Prim.str "v"⟩⟩, true⟩ := by
  exact ⟨rfl, rfl, rfl⟩

/-- Claim C7 fails on the code at `null`: `entity && (this.id === entity.id)`
returns the falsy argument itself, so `isEqual(null)` is `null` and
`isEqual(undefined)` is `undefined` — not the Boolean `false` the claim (and
the method's own `@returns \x7bboolean\x7d` doc) states.  Comparison against a
genuine entity does return a Boolean; self-comparison returns `true`. -/
theorem c7_is_equal_null_is_not_false :
    (∀ f : EntityTuple → String,
      isEqual f ⟨⟨Prim.str "button", none, none⟩, true⟩ JSArg.null = Prim.null ∧
      isEqual f ⟨⟨Prim.str "button", none, none⟩, true⟩ JSArg.undef = Prim.undef ∧
      isEqual f ⟨⟨Prim.str "button", none, none⟩, true⟩
        (JSArg.entity ⟨⟨Prim.str "button", none, none⟩, true⟩) = Prim.bool true) ∧
    Prim.null ≠ Prim.bool false ∧ Prim.undef ≠ Prim.bool false := by
  refine ⟨fun f => ⟨rfl, rfl, ?_⟩, by decide, by decide⟩
  simp [isEqual]

/-- Claim C8: `toString()` returns exactly `id`, and `id` is the external
stringify collaborator applied to the normalized tuple, whose `elem` /
`modName` / `modVal` slots are filled exactly when the corresponding accessor
is truthy and omitted when it is falsy. -/
theorem c8_to_string_equals_id (f : EntityTuple → String) (i : BemInstance) :
    entityToString f i = entityId f i ∧
    entityId f i = f (idTuple i) ∧
    (idTuple i).block = getBlock i ∧
    ((idTuple i).elem = none ↔ truthy (getElem i) = false) ∧
    ((idTuple i).modName = none ↔ truthy (getModName i) = false) ∧
    ((idTuple i).modVal = none ↔ truthy (getModVal i) = false) ∧
    (truthy (getElem i) = true → (idTuple i).elem = some (getElem i)) ∧
    (truthy (getModName i) = true → (idTuple i).modName = some (getModName i)) ∧
    (truthy (getModVal i) = true → (idTuple i).modVal = some (getModVal i)) := by
  refine ⟨rfl, rfl, rfl, ?_, ?_, ?_, ?_, ?_, ?_⟩
  · cases h : truthy (getElem i) <;> simp [idTuple, h]
  · cases h : truthy (getModName i) <;> simp [idTuple, h]
  · cases h : truthy (getModVal i) <;> simp [idTuple, h]
  · intro h
    simp [idTuple, h]
  · intro h
    simp [idTuple, h]
  · intro h
    simp [idTuple, h]

/-- Claim C9: the debug representation (`valueOf`, also rendered by
`inspect`) of a validly constructed entity has keys only among `block`,
`elem`, `mod`; it never exposes `modName`, `modVal`, `_isEntity` or `_id`;
and `elem` / `mod` appear exactly when the constructor stored them. -/
theorem c9_value_of_keys (input : InputObj) (i : BemInstance)
    (h : construct input = Except.ok i) :
    (∀ k ∈ (valueOf i).map Prod.fst, k = "block" ∨ k = "elem" ∨ k = "mod") ∧
    "modName" ∉ (valueOf i).map Prod.fst ∧
    "modVal" ∉ (valueOf i).map Prod.fst ∧
    "_isEntity" ∉ (valueOf i).map Prod.fst ∧
    "_id" ∉ (valueOf i).map Prod.fst ∧
    ("elem" ∈ (valueOf i).map Prod.fst ↔ i.obj.elem.isSome = true) ∧
    ("mod" ∈ (valueOf i).map Prod.fst ↔ i.obj.mod.isSome = true) := by
  rcases i with ⟨⟨b, e, m⟩, flag⟩
  cases e <;> cases m <;> simp [valueOf]

/-- Witness for C9 at a concrete element-plus-modifier entity. -/
theorem c9_value_of_keys_witness :
    "modName" ∉
      (valueOf (⟨⟨Prim.str "b", some (Prim.str "e"),
        some ⟨Prim.str "m", Prim.bool true⟩⟩, true⟩ : BemInstance)).map Prod.fst ∧
    "mod" ∈
      (valueOf (⟨⟨Prim.str "b", some (Prim.str "e"),
        some ⟨Prim.str "m", Prim.bool true⟩⟩, true⟩ : BemInstance)).map Prod.fst :=
  ⟨(c9_value_of_keys
      { block := some (Prim.str "b"), elem := some (Prim.str "e"),
        mod := some (ModField.prim (Prim.str "m")) }
      ⟨⟨Prim.str "b", some (Prim.str "e"), some ⟨Prim.str "m", Prim.bool true⟩⟩, true⟩
      rfl).2.1,
   ((c9_value_of_keys
      { block := some (Prim.str "b"), elem := some (Prim.str "e"),
        mod := some (ModField.prim (Prim.str "m")) }
      ⟨⟨Prim.str "b", some (Prim.str "e"), some ⟨Prim.str "m", Prim.bool true⟩⟩, true⟩
      rfl).2.2.2.2.2.2).mpr rfl⟩

/-- Claim C10: `isBemEntity` yields the truthy marker `true` for every
constructed instance (the constructor always sets `_isEntity`), while on
`null` / `undefined` the unguarded property access throws — no value at all,
in particular never `false`, is returned. -/
theorem c10_is_bem_entity_unguarded (input : InputObj) (i : BemInstance)
    (h : construct input = Except.ok i) :
    isBemEntity (JSArg.entity i) = Except.ok (Prim.bool true) ∧
    truthy (Prim.bool true) = true ∧
    (∀ r, isBemEntity JSArg.null ≠ Except.ok r) ∧
    (∀ r, isBemEntity JSArg.undef ≠ Except.ok r) := by
  refine ⟨?_, rfl, ?_, ?_⟩
  · simp [isBemEntity, construct_sets_flag input i h]
  · intro r hr
    exact absurd hr (by simp [isBemEntity])
  · intro r hr
    exact absurd hr (by simp [isBemEntity])

/-- Witness for C10 at the concrete input `\x7b block: 'b' \x7d`. -/
theorem c10_is_bem_entity_unguarded_witness :
    isBemEntity (JSArg.entity ⟨⟨Prim.str "b", none, none⟩, true⟩) =
      Except.ok (Prim.bool true) ∧
    (∀ r, isBemEntity JSArg.null ≠ Except.ok r) :=
  ⟨(c10_is_bem_entity_unguarded { block := some (Prim.str "b") }
      ⟨⟨Prim.str "b", none, none⟩, true⟩ rfl).1,
   (c10_is_bem_entity_unguarded { block := some (Prim.str "b") }
      ⟨⟨Prim.str "b", none, none⟩, true⟩ rfl).2.2.1⟩
